import Mathlib

/-!
Shallow embedding of the `computer` GPU spend-analytics engine
(modules `computer.connect.base`, `computer.see`, `computer.waste`,
`computer.forecast`, `computer.optimize`) and proofs of the frozen claims.

Modelling conventions, applied uniformly:
* Python `float` values (costs, hours, utilization percentages) are embedded
  as exact rationals `ℚ`; "within floating-point tolerance" statements become
  exact equalities of the ideal-arithmetic values.  The one genuinely real
  computation — the square roots inside the forecaster's confidence margin —
  is embedded in `ℝ` via `Real.sqrt`.
* Python `datetime` values are embedded as `PyDateTime` (a calendar-day index
  plus a second-of-day); `replace(hour=0, minute=0, second=0, microsecond=0)`
  becomes `truncateToDay`, and `(a - b).days` becomes flooring division of the
  second difference, as in `datetime.timedelta`.
* Python `dict`s built by insertion are embedded as association lists in
  first-insertion order (`List (κ × β)`), matching Python's guaranteed dict
  iteration order; `defaultdict` grouping is embedded by taking the keys in
  first-occurrence order (`List.dedup` keeps the first occurrence) and
  summing a filter per key.
* A provider connector call that may raise is embedded as an
  `Except String` result; `try/except` becomes a `match` on that result.
* Presentation-only fields that no claim mentions (human-readable message
  strings, `detected_at`/`generated_at` timestamps, recommendation titles,
  descriptions and action-step texts, and the forecaster's pure date
  bookkeeping `forecast_date`/`period_start`/`period_end`) are omitted from
  the embedded records.
-/

namespace Computer

/-- `GPUType` enumeration from `computer/connect/base.py`. -/
inductive GPUType where
  | A100_40GB | A100_80GB | H100_80GB | H100_SXM
  | V100_16GB | V100_32GB | A10G | L4 | L40S | T4
  | RTX_4090 | RTX_4080 | RTX_3090 | RTX_3080
  | MI250X | MI300X
  | UNKNOWN
deriving DecidableEq, Repr

/-- The `.value` string of a `GPUType` member. -/
def GPUType.value : GPUType → String
  | .A100_40GB => "a100-40gb"
  | .A100_80GB => "a100-80gb"
  | .H100_80GB => "h100-80gb"
  | .H100_SXM => "h100-sxm"
  | .V100_16GB => "v100-16gb"
  | .V100_32GB => "v100-32gb"
  | .A10G => "a10g"
  | .L4 => "l4"
  | .L40S => "l40s"
  | .T4 => "t4"
  | .RTX_4090 => "rtx-4090"
  | .RTX_4080 => "rtx-4080"
  | .RTX_3090 => "rtx-3090"
  | .RTX_3080 => "rtx-3080"
  | .MI250X => "mi250x"
  | .MI300X => "mi300x"
  | .UNKNOWN => "unknown"

/-- `PricingType` enumeration from `computer/connect/base.py`. -/
inductive PricingType where
  | ON_DEMAND | SPOT | RESERVED | PREEMPTIBLE
deriving DecidableEq, Repr

/-- Embedding of a Python `datetime`: calendar-day index (days since an
arbitrary epoch) and second of that day. -/
structure PyDateTime where
  day : ℤ
  secOfDay : ℕ
deriving DecidableEq, Repr

/-- `dt.replace(hour=0, minute=0, second=0, microsecond=0)`. -/
def PyDateTime.truncateToDay (t : PyDateTime) : PyDateTime :=
  ⟨t.day, 0⟩

/-- `(b - a).days`: `datetime.timedelta.days` floors toward minus infinity. -/
def daysBetween (a b : PyDateTime) : ℤ :=
  ((b.day * 86400 + (b.secOfDay : ℤ)) - (a.day * 86400 + (a.secOfDay : ℤ))).fdiv 86400

/-- Python `str.lower()`, character by character (the status strings the
code compares against are ASCII, where this agrees with Python). -/
def pyLower (s : String) : String :=
  ⟨s.data.map Char.toLower⟩

/-- `GPUInstance` dataclass from `computer/connect/base.py` (the optional
`launched_at` timestamp and `tags` dict are carried but unused by any claim;
tags are kept as key/value pairs). -/
structure GPUInstance where
  instance_id : String
  provider : String
  instance_type : String
  gpu_type : GPUType
  gpu_count : ℕ
  region : String
  pricing_type : PricingType
  hourly_cost : ℚ
  status : String
  launched_at : Option PyDateTime := none
  tags : List (String × String) := []
  gpu_utilization : Option ℚ := none
  memory_utilization : Option ℚ := none
deriving DecidableEq, Repr

/-- `GPUInstance.is_running`: `self.status.lower() in ("running", "active")`. -/
def GPUInstance.is_running (i : GPUInstance) : Bool :=
  pyLower i.status == "running" || pyLower i.status == "active"

/-- `GPUInstance.is_idle`: not running → `False`; else if utilization is
known, `utilization < 10.0`; else `False`. -/
def GPUInstance.is_idle (i : GPUInstance) : Bool :=
  if ¬ i.is_running then false
  else match i.gpu_utilization with
    | some u => decide (u < 10)
    | none => false

/-- `UsageRecord` dataclass from `computer/connect/base.py`. -/
structure UsageRecord where
  instance_id : String
  provider : String
  start_time : PyDateTime
  end_time : PyDateTime
  hours_used : ℚ
  cost : ℚ
  gpu_type : GPUType
  gpu_count : ℕ
  pricing_type : PricingType
  region : String
deriving DecidableEq, Repr

/-- `UsageRecord.effective_hourly_rate`. -/
def UsageRecord.effective_hourly_rate (r : UsageRecord) : ℚ :=
  if r.hours_used > 0 then r.cost / r.hours_used else 0

/-- First-occurrence deduplication by a key, tracking the keys already seen.
This is exactly the `seen`-set loop of `Recommender.generate_recommendations`,
and with `key = id`, `seen = []` it yields the keys of a Python dict in
first-insertion order. -/
def dedupByKeyAux {α κ : Type} [DecidableEq κ] (key : α → κ) :
    List κ → List α → List α
  | _, [] => []
  | seen, x :: xs =>
    if key x ∈ seen then dedupByKeyAux key seen xs
    else x :: dedupByKeyAux key (key x :: seen) xs

/-- Keys of a Python dict whose entries were inserted in the order of `l`:
first occurrences, in order. -/
def pyDictKeys {κ : Type} [DecidableEq κ] (l : List κ) : List κ :=
  dedupByKeyAux id [] l

/-- A provider connector, embedding the `BaseConnector` capability contract.
The two data calls may raise, which is embedded as an `Except` result;
`get_usage` is a function of the requested window. -/
structure BaseConnector where
  provider_name : String
  connectResult : Bool
  list_gpu_instances : Except String (List GPUInstance)
  get_usage : PyDateTime → PyDateTime → Except String (List UsageRecord)
  get_current_spend : ℚ

/-- `SpendAggregator.get_all_instances`: extend the accumulator with each
connector's instances, skipping (and logging) a connector whose call raises. -/
def get_all_instances (connectors : List BaseConnector) : List GPUInstance :=
  connectors.foldl
    (fun instances c =>
      match c.list_gpu_instances with
      | .ok l => instances ++ l
      | .error _ => instances)
    []

/-- `SpendAggregator.get_all_usage`: extend the accumulator with each
connector's usage records for the window, skipping a connector whose call
raises. -/
def get_all_usage (connectors : List BaseConnector)
    (start_date end_date : PyDateTime) : List UsageRecord :=
  connectors.foldl
    (fun records c =>
      match c.get_usage start_date end_date with
      | .ok l => records ++ l
      | .error _ => records)
    []

/-- `ProviderBreakdown` dataclass from `computer/see/models.py`. -/
structure ProviderBreakdown where
  provider : String
  total_cost : ℚ
  total_hours : ℚ
  instance_count : ℕ
  running_count : ℕ
  idle_count : ℕ
deriving DecidableEq, Repr

/-- `ProviderBreakdown.avg_hourly_rate`. -/
def ProviderBreakdown.avg_hourly_rate (p : ProviderBreakdown) : ℚ :=
  if p.total_hours > 0 then p.total_cost / p.total_hours else 0

/-- `ProviderBreakdown.idle_percentage`. -/
def ProviderBreakdown.idle_percentage (p : ProviderBreakdown) : ℚ :=
  if p.running_count > 0 then ((p.idle_count : ℚ) / (p.running_count : ℚ)) * 100
  else 0

/-- `GPUBreakdown` dataclass from `computer/see/models.py`. -/
structure GPUBreakdown where
  gpu_type : GPUType
  total_cost : ℚ
  total_hours : ℚ
  gpu_count : ℕ
  avg_utilization : Option ℚ := none
deriving DecidableEq, Repr

/-- `RegionBreakdown` dataclass from `computer/see/models.py`. -/
structure RegionBreakdown where
  region : String
  provider : String
  total_cost : ℚ
  instance_count : ℕ
deriving DecidableEq, Repr

/-- `PricingBreakdown` dataclass from `computer/see/models.py`. -/
structure PricingBreakdown where
  pricing_type : PricingType
  total_cost : ℚ
  total_hours : ℚ
  instance_count : ℕ
deriving DecidableEq, Repr

/-- `PricingBreakdown.potential_savings`: 60% of on-demand cost, 0 otherwise. -/
def PricingBreakdown.potential_savings (p : PricingBreakdown) : ℚ :=
  if p.pricing_type = PricingType.ON_DEMAND then p.total_cost * (6/10) else 0

/-- `SpendSummary` dataclass from `computer/see/models.py`. -/
structure SpendSummary where
  start_date : PyDateTime
  end_date : PyDateTime
  total_cost : ℚ
  total_gpu_hours : ℚ
  total_instances : ℕ
  running_instances : ℕ
  idle_instances : ℕ
  by_provider : List ProviderBreakdown := []
  by_gpu_type : List GPUBreakdown := []
  by_region : List RegionBreakdown := []
  by_pricing : List PricingBreakdown := []
  avg_gpu_utilization : Option ℚ := none
  estimated_waste : ℚ := 0
  potential_savings : ℚ := 0
deriving DecidableEq, Repr

/-- The `f"{record.provider}:{record.region}"` grouping key. -/
def regionKey (r : UsageRecord) : String :=
  r.provider ++ ":" ++ r.region

/-- `SpendAggregator.get_summary`, with the time window already resolved
(the Python default-window resolution reads `datetime.now()` and is applied
by the caller).  Each `defaultdict` grouping pass is embedded as: keys in
first-insertion order, and per key the fold of the updates that hit that key,
which for the numeric fields is a sum over the filtered list. -/
def get_summary (connectors : List BaseConnector)
    (start_date end_date : PyDateTime) : SpendSummary :=
  let instances := get_all_instances connectors
  let usage_records := get_all_usage connectors start_date end_date
  let total_cost := (usage_records.map (·.cost)).sum
  let total_hours := (usage_records.map (·.hours_used)).sum
  let running_instances := instances.filter (·.is_running)
  let idle_instances := instances.filter (·.is_idle)
  -- by provider: records insert keys first, then running instances
  let providerKeys := pyDictKeys
    (usage_records.map (·.provider) ++
      (instances.filter (·.is_running)).map (·.provider))
  let by_provider := providerKeys.map (fun p =>
    let recs := usage_records.filter (fun r => r.provider == p)
    { provider := p
      total_cost := (recs.map (·.cost)).sum
      total_hours := (recs.map (·.hours_used)).sum
      instance_count := ((recs.map (·.instance_id)).dedup).length
      running_count :=
        (instances.filter (fun i => i.is_running && i.provider == p)).length
      idle_count :=
        (instances.filter
          (fun i => i.is_running && i.is_idle && i.provider == p)).length
      : ProviderBreakdown })
  -- by GPU type: records insert keys first, then instances with a reading
  let gpuKeys := pyDictKeys
    (usage_records.map (·.gpu_type) ++
      (instances.filter (fun i => i.gpu_utilization.isSome)).map (·.gpu_type))
  let by_gpu_type := gpuKeys.map (fun g =>
    let recs := usage_records.filter (fun r => r.gpu_type == g)
    let utilizations :=
      (instances.filter (fun i => i.gpu_type == g)).filterMap (·.gpu_utilization)
    { gpu_type := g
      total_cost := (recs.map (·.cost)).sum
      total_hours := (recs.map (·.hours_used)).sum
      gpu_count := (recs.map (·.gpu_count)).sum
      avg_utilization :=
        if utilizations.length ≠ 0 then
          some (utilizations.sum / (utilizations.length : ℚ))
        else none
      : GPUBreakdown })
  -- by region: keyed by "provider:region"; the provider cell is overwritten
  -- on every hit, so the last record for the key wins
  let regKeys := pyDictKeys (usage_records.map regionKey)
  let by_region := regKeys.map (fun k =>
    let recs := usage_records.filter (fun r => regionKey r == k)
    { region := ((k.splitOn ":").getLast?).getD ""
      provider := (((recs.map (·.provider)).getLast?).getD "")
      total_cost := (recs.map (·.cost)).sum
      instance_count := recs.length
      : RegionBreakdown })
  -- by pricing type
  let pricingKeys := pyDictKeys (usage_records.map (·.pricing_type))
  let by_pricing := pricingKeys.map (fun t =>
    let recs := usage_records.filter (fun r => r.pricing_type == t)
    { pricing_type := t
      total_cost := (recs.map (·.cost)).sum
      total_hours := (recs.map (·.hours_used)).sum
      instance_count := recs.length
      : PricingBreakdown })
  let all_utilizations := instances.filterMap (·.gpu_utilization)
  let avg_utilization :=
    if all_utilizations.length ≠ 0 then
      some (all_utilizations.sum / (all_utilizations.length : ℚ))
    else none
  let estimated_waste :=
    (idle_instances.map
      (fun i => i.hourly_cost * 24 * ((daysBetween start_date end_date : ℤ) : ℚ))).sum
  let potential_savings := (by_pricing.map (·.potential_savings)).sum
  { start_date := start_date
    end_date := end_date
    total_cost := total_cost
    total_gpu_hours := total_hours
    total_instances := instances.length
    running_instances := running_instances.length
    idle_instances := idle_instances.length
    by_provider := by_provider
    by_gpu_type := by_gpu_type
    by_region := by_region
    by_pricing := by_pricing
    avg_gpu_utilization := avg_utilization
    estimated_waste := estimated_waste
    potential_savings := potential_savings }

/-! ## Waste rules (`computer/waste/rules.py`) -/

/-- `WasteType` enumeration. -/
inductive WasteType where
  | idle_gpu | low_utilization | oversized_instance | spot_opportunity
  | stopped_with_storage | wrong_region | redundant_instance | long_running_spot
deriving DecidableEq, Repr

/-- `Severity` enumeration. -/
inductive Severity where
  | low | medium | high | critical
deriving DecidableEq, Repr

/-- `WasteAlert` dataclass (the `instance` field is named `inst` because
`instance` is a Lean keyword; the message/recommendation strings and the
`detected_at` timestamp are presentation-only and omitted). -/
structure WasteAlert where
  waste_type : WasteType
  severity : Severity
  inst : GPUInstance
  estimated_waste_per_day : ℚ
deriving DecidableEq, Repr

/-- `WasteAlert.monthly_waste`. -/
def WasteAlert.monthly_waste (a : WasteAlert) : ℚ :=
  a.estimated_waste_per_day * 30

/-- `IdleGPURule.evaluate` with its `threshold` (default 5.0). -/
def IdleGPURule.evaluate (threshold : ℚ) (i : GPUInstance) : Option WasteAlert :=
  if ¬ i.is_running then none
  else match i.gpu_utilization with
    | none => none
    | some u =>
      if u < threshold then
        some { waste_type := .idle_gpu
               severity := if i.hourly_cost > 5 then .high else .medium
               inst := i
               estimated_waste_per_day := i.hourly_cost * 24 }
      else none

/-- `LowUtilizationRule.evaluate` with its `threshold` (default 30.0). -/
def LowUtilizationRule.evaluate (threshold : ℚ) (i : GPUInstance) :
    Option WasteAlert :=
  if ¬ i.is_running then none
  else match i.gpu_utilization with
    | none => none
    | some u =>
      if 5 ≤ u ∧ u < threshold then
        some { waste_type := .low_utilization
               severity := .medium
               inst := i
               estimated_waste_per_day :=
                 i.hourly_cost * 24 * (1 - u / 100) * (1/2) }
      else none

/-- `SpotOpportunityRule.evaluate` with its `spot_discount` threshold
(default 0.6). -/
def SpotOpportunityRule.evaluate (spot_discount : ℚ) (i : GPUInstance) :
    Option WasteAlert :=
  if ¬ i.is_running then none
  else if i.pricing_type ≠ PricingType.ON_DEMAND then none
  else if i.hourly_cost > 50 then none
  else
    some { waste_type := .spot_opportunity
           severity := .low
           inst := i
           estimated_waste_per_day := i.hourly_cost * 24 * spot_discount }

/-- The `downgrade_suggestions` table of `OversizedInstanceRule.evaluate`. -/
def downgrade_suggestions : GPUType → Option GPUType
  | .A100_80GB => some .A100_40GB
  | .H100_80GB => some .A100_80GB
  | .RTX_4090 => some .RTX_4080
  | _ => none

/-- `OversizedInstanceRule.evaluate` with its `memory_threshold`
(default 30.0). -/
def OversizedInstanceRule.evaluate (memory_threshold : ℚ) (i : GPUInstance) :
    Option WasteAlert :=
  if ¬ i.is_running then none
  else match i.memory_utilization with
    | none => none
    | some m =>
      if m < memory_threshold then
        match downgrade_suggestions i.gpu_type with
        | some _ =>
          some { waste_type := .oversized_instance
                 severity := .medium
                 inst := i
                 estimated_waste_per_day := i.hourly_cost * 24 * (3/10) }
        | none => none
      else none

/-- The kind of a registered `WasteRule` (which subclass it is). -/
inductive RuleKind where
  | idleGPU | lowUtilization | spotOpportunity | oversizedInstance
deriving DecidableEq, Repr

/-- A registered `WasteRule`: its kind, threshold and enabled flag. -/
structure WasteRule where
  kind : RuleKind
  threshold : ℚ
  enabled : Bool := true
deriving DecidableEq, Repr

/-- Dispatch of `rule.evaluate(instance)` on the rule's kind. -/
def WasteRule.evaluate (r : WasteRule) (i : GPUInstance) : Option WasteAlert :=
  match r.kind with
  | .idleGPU => IdleGPURule.evaluate r.threshold i
  | .lowUtilization => LowUtilizationRule.evaluate r.threshold i
  | .spotOpportunity => SpotOpportunityRule.evaluate r.threshold i
  | .oversizedInstance => OversizedInstanceRule.evaluate r.threshold i

/-- `DEFAULT_RULES` with their default thresholds. -/
def DEFAULT_RULES : List WasteRule :=
  [ { kind := .idleGPU, threshold := 5 }
  , { kind := .lowUtilization, threshold := 30 }
  , { kind := .spotOpportunity, threshold := 6/10 }
  , { kind := .oversizedInstance, threshold := 30 } ]

/-- `WasteDetector.analyze_instance`: run every enabled rule against one
instance, collecting the alerts in rule order (the embedded rules are total,
so the per-rule `try/except` never fires). -/
def analyze_instance (rules : List WasteRule) (i : GPUInstance) :
    List WasteAlert :=
  rules.foldl
    (fun alerts r =>
      if ¬ r.enabled then alerts
      else match r.evaluate i with
        | some a => alerts ++ [a]
        | none => alerts)
    []

/-! ## Recommender (`computer/optimize/recommender.py`) -/

/-- `RecommendationType` enumeration. -/
inductive RecommendationType where
  | terminate_idle | switch_to_spot | downsize_instance | change_region
  | change_provider | schedule_shutdown | use_reserved | batch_workloads
deriving DecidableEq, Repr

/-- `Priority` enumeration. -/
inductive Priority where
  | critical | high | medium | low
deriving DecidableEq, Repr

/-- The `priority_order` rank table of `generate_recommendations`. -/
def priority_order : Priority → ℕ
  | .critical => 0
  | .high => 1
  | .medium => 2
  | .low => 3

/-- `Recommendation` dataclass (the title/description/action-step strings
are presentation-only and omitted). -/
structure Recommendation where
  rec_type : RecommendationType
  priority : Priority
  monthly_savings : ℚ
  effort : String
  instance_id : Option String := none
  provider : Option String := none
deriving DecidableEq, Repr

/-- The Boolean order on recommendations induced by Python's sort key
`(priority_order[r.priority], -r.monthly_savings)`. -/
def recLE (a b : Recommendation) : Bool :=
  priority_order a.priority < priority_order b.priority ||
    (priority_order a.priority == priority_order b.priority &&
      b.monthly_savings ≤ a.monthly_savings)

/-- The deduplication key `(rec.instance_id, rec.rec_type)`. -/
def recKey (r : Recommendation) : Option String × RecommendationType :=
  (r.instance_id, r.rec_type)

/-- The tail of `Recommender.generate_recommendations`, applied to the
concatenated candidate list: sort by `(priority rank, -monthly_savings)`
(Python's sort and `List.mergeSort` are both stable), then keep only the
first occurrence per `(instance_id, rec_type)` key via the `seen` set. -/
def finalizeRecommendations (recommendations : List Recommendation) :
    List Recommendation :=
  let sorted := recommendations.mergeSort recLE
  dedupByKeyAux recKey [] sorted

/-! ## Forecaster (`computer/forecast/predictor.py`) -/

/-- `now - timedelta(days=n)`. -/
def PyDateTime.subDays (t : PyDateTime) (n : ℤ) : PyDateTime :=
  ⟨t.day - n, t.secOfDay⟩

/-- The `datetime` order used by `sorted(daily_costs.keys())`. -/
def pyDateLE (a b : PyDateTime) : Bool :=
  a.day < b.day || (a.day == b.day && a.secOfDay ≤ b.secOfDay)

/-- `CostForecast` dataclass.  The ideal-arithmetic value of the trend path's
confidence margin involves square roots, so the numeric fields live in `ℝ`;
the pure date bookkeeping fields (`forecast_date`, `period_start`,
`period_end`) are omitted. -/
structure CostForecast where
  predicted_cost : ℝ
  confidence_low : ℝ
  confidence_high : ℝ
  confidence_level : ℚ := 95/100
  by_provider : List (String × ℝ) := []
  by_gpu_type : List (String × ℝ) := []
  model_type : String := "linear_trend"
  data_points_used : ℕ := 0

/-- The day-bucket key of `_aggregate_daily_costs`:
`record.start_time.replace(hour=0, minute=0, second=0, microsecond=0)`. -/
def dailyKey (r : UsageRecord) : PyDateTime :=
  r.start_time.truncateToDay

/-- The value of the `_aggregate_daily_costs` dict at day `d`. -/
def daily_cost (records : List UsageRecord) (d : PyDateTime) : ℚ :=
  ((records.filter (fun r => dailyKey r == d)).map (·.cost)).sum

/-- The key list of the `_aggregate_daily_costs` dict, in insertion order. -/
def dailyKeysOf (records : List UsageRecord) : List PyDateTime :=
  pyDictKeys (records.map dailyKey)

/-- `_aggregate_by_provider` as an association list in insertion order. -/
def aggregate_by_provider (records : List UsageRecord) : List (String × ℚ) :=
  (pyDictKeys (records.map (·.provider))).map (fun p =>
    (p, ((records.filter (fun r => r.provider == p)).map (·.cost)).sum))

/-- `_aggregate_by_gpu_type` (keyed by `record.gpu_type.value`) as an
association list in insertion order. -/
def aggregate_by_gpu_type (records : List UsageRecord) : List (String × ℚ) :=
  (pyDictKeys (records.map (fun r => r.gpu_type.value))).map (fun g =>
    (g, ((records.filter (fun r => r.gpu_type.value == g)).map (·.cost)).sum))

/-- `Σ i * ys[i]` for `i = 0, …, n-1`: the `x·y` sum of the regression. -/
def idxWeightedSum (ys : List ℚ) : ℚ :=
  (ys.enum.map (fun p => (p.1 : ℚ) * p.2)).sum

/-- Ordinary-least-squares slope of `np.polyfit(x, y, 1)` for
`x = 0, …, n-1`, in closed form over exact rationals. -/
def lsqSlope (ys : List ℚ) : ℚ :=
  let n : ℚ := ys.length
  let sumX : ℚ := (n - 1) * n / 2
  let sumX2 : ℚ := (n - 1) * n * (2 * n - 1) / 6
  let sumY : ℚ := ys.sum
  (n * idxWeightedSum ys - sumX * sumY) / (n * sumX2 - sumX ^ 2)

/-- Ordinary-least-squares intercept of `np.polyfit(x, y, 1)` for
`x = 0, …, n-1`. -/
def lsqIntercept (ys : List ℚ) : ℚ :=
  let n : ℚ := ys.length
  let sumX : ℚ := (n - 1) * n / 2
  (ys.sum - lsqSlope ys * sumX) / n

/-- Population variance, the square of `np.std(y)` (`ddof=0`). -/
def popVariance (ys : List ℚ) : ℚ :=
  let n : ℚ := ys.length
  let mean := ys.sum / n
  (ys.map (fun y => (y - mean) ^ 2)).sum / n

/-- `CostPredictor._forecast_from_current_instances`, with the instance list
already fetched. -/
def forecast_from_current_instances (instances : List GPUInstance) :
    CostForecast :=
  let running := instances.filter (·.is_running)
  let monthly_cost : ℚ := ((running.map (·.hourly_cost)).sum) * 24 * 30
  let by_provider := (pyDictKeys (running.map (·.provider))).map (fun p =>
    (p, (((running.filter (fun i => i.provider == p)).map
      (fun i => i.hourly_cost * 24 * 30)).sum : ℚ)))
  let by_gpu_type := (pyDictKeys (running.map (fun i => i.gpu_type.value))).map
    (fun g =>
      (g, (((running.filter (fun i => i.gpu_type.value == g)).map
        (fun i => i.hourly_cost * 24 * 30)).sum : ℚ)))
  { predicted_cost := (monthly_cost : ℝ)
    confidence_low := ((monthly_cost * (8/10) : ℚ) : ℝ)
    confidence_high := ((monthly_cost * (12/10) : ℚ) : ℝ)
    by_provider := by_provider.map (fun p => (p.1, (p.2 : ℝ)))
    by_gpu_type := by_gpu_type.map (fun p => (p.1, (p.2 : ℝ)))
    model_type := "current_instances"
    data_points_used := running.length }

/-- The body of `CostPredictor.forecast_month` after the usage records and
(for the no-data fallback) the instances have been fetched.  `days_ahead`
is `(target_month - now).days`.  `np.polyfit(x, y, 1)` is embedded as the
closed-form least-squares line and `np.std` as the population standard
deviation, both over exact arithmetic. -/
noncomputable def forecast_month_on (usage_records : List UsageRecord)
    (instances : List GPUInstance) (days_ahead : ℤ) : CostForecast :=
  if usage_records.isEmpty then
    forecast_from_current_instances instances
  else
    let dailyKeys := dailyKeysOf usage_records
    if dailyKeys.length < 3 then
      let avg_daily : ℚ :=
        ((dailyKeys.map (daily_cost usage_records)).sum) / (dailyKeys.length : ℚ)
      let predicted := avg_daily * 30
      { predicted_cost := (predicted : ℝ)
        confidence_low := ((predicted * (7/10) : ℚ) : ℝ)
        confidence_high := ((predicted * (13/10) : ℚ) : ℝ)
        data_points_used := dailyKeys.length }
    else
      let days := dailyKeys.mergeSort pyDateLE
      let costs := days.map (daily_cost usage_records)
      let slope := lsqSlope costs
      let intercept := lsqIntercept costs
      let projected_daily := intercept + slope * ((costs.length : ℚ) + (days_ahead : ℚ))
      let projected : ℚ := max 0 projected_daily
      let predicted : ℚ := projected * 30
      let confidence_margin : ℝ :=
        (196/100 : ℝ) * Real.sqrt ((popVariance costs : ℚ) : ℝ) * Real.sqrt 30
      let by_provider := aggregate_by_provider usage_records
      let by_gpu_type := aggregate_by_gpu_type usage_records
      let total_historical := (usage_records.map (·.cost)).sum
      let scale : ℚ → ℚ := fun v =>
        if total_historical > 0 then v * (predicted / total_historical) else v
      { predicted_cost := (predicted : ℝ)
        confidence_low := max 0 ((predicted : ℝ) - confidence_margin)
        confidence_high := (predicted : ℝ) + confidence_margin
        by_provider := by_provider.map (fun p => (p.1, ((scale p.2 : ℚ) : ℝ)))
        by_gpu_type := by_gpu_type.map (fun p => (p.1, ((scale p.2 : ℚ) : ℝ)))
        model_type := "linear_trend"
        data_points_used := costs.length }

/-- `CostPredictor.forecast_month`: fetch the lookback window's usage records
and the instances through the aggregator, then run the forecast body.
`days_ahead = (target_month - now).days`. -/
noncomputable def forecast_month (connectors : List BaseConnector)
    (now target_month : PyDateTime) (lookback_days : ℤ) : CostForecast :=
  forecast_month_on
    (get_all_usage connectors (now.subDays lookback_days) now)
    (get_all_instances connectors)
    (daysBetween now target_month)

/-! ## Training cost estimation (`CostPredictor.estimate_training_cost`) -/

/-- The `GPU_RATES` class table: provider → $/GPU-hour, per GPU type;
`dict.get(gpu_type, {})` yields `[]` for absent types. -/
def GPU_RATES : GPUType → List (String × ℚ)
  | .A100_40GB =>
    [("aws", 32.77 / 8), ("gcp", 2.93), ("azure", 3.67),
     ("vastai", 1.20), ("runpod", 1.19), ("lambda", 1.10)]
  | .A100_80GB =>
    [("aws", 40.97 / 8), ("gcp", 3.67), ("azure", 3.67),
     ("vastai", 1.50), ("runpod", 1.49), ("lambda", 1.29)]
  | .H100_80GB =>
    [("aws", 98.32 / 8), ("gcp", 10.80), ("azure", 98.32 / 8),
     ("vastai", 2.50), ("runpod", 2.39), ("lambda", 1.99)]
  | .RTX_4090 => [("vastai", 0.45), ("runpod", 0.44)]
  | .T4 => [("aws", 0.526), ("gcp", 0.35), ("azure", 0.526)]
  | _ => []

/-- The peak-FLOPs table of `estimate_training_cost`, with the documented
A100 default (312 TFLOPS) for absent types. -/
def flopsPerGPU : GPUType → ℚ
  | .A100_40GB => 312e12
  | .A100_80GB => 312e12
  | .H100_80GB => 1979e12
  | .H100_SXM => 1979e12
  | .RTX_4090 => 82.6e12
  | _ => 312e12

/-- `TrainingCostEstimate` dataclass (the formatted `model_name` string is
presentation-only and omitted). -/
structure TrainingCostEstimate where
  gpu_type : GPUType
  gpu_count : ℕ
  estimated_hours : ℚ
  estimated_cost : ℚ
  cost_range_low : ℚ
  cost_range_high : ℚ
  provider_costs : List (String × ℚ) := []
  cheapest_provider : String := ""
  cheapest_cost : ℚ := 0
deriving DecidableEq, Repr

/-- `CostPredictor.estimate_training_cost`.  `min(items, key=value)` keeps
the first item attaining the minimal value, which the strict-`<` fold
reproduces; the `if provider_costs:` guards become the match on the cost
list. -/
def estimate_training_cost (model_size_params : ℚ) (gpu_type : GPUType)
    (gpu_count : ℕ) (training_tokens : ℚ) : TrainingCostEstimate :=
  let flops_per_gpu := flopsPerGPU gpu_type
  let total_flops := 6 * model_size_params * 1e9 * training_tokens
  let gpu_seconds := total_flops / (flops_per_gpu * (gpu_count : ℚ) * (4/10))
  let gpu_hours := gpu_seconds / 3600
  let rates := GPU_RATES gpu_type
  let provider_costs := rates.map
    (fun pr => (pr.1, pr.2 * (gpu_count : ℚ) * gpu_hours))
  match provider_costs with
  | [] =>
    { gpu_type := gpu_type
      gpu_count := gpu_count
      estimated_hours := gpu_hours
      estimated_cost := 0
      cost_range_low := 0
      cost_range_high := 0
      provider_costs := []
      cheapest_provider := "unknown"
      cheapest_cost := 0 }
  | x :: xs =>
    let cheapest := xs.foldl (fun best p => if p.2 < best.2 then p else best) x
    let avg_cost := ((x :: xs).map (·.2)).sum / (((x :: xs).length : ℕ) : ℚ)
    let range_high := (xs.map (·.2)).foldl max x.2
    { gpu_type := gpu_type
      gpu_count := gpu_count
      estimated_hours := gpu_hours
      estimated_cost := avg_cost
      cost_range_low := cheapest.2
      cost_range_high := range_high
      provider_costs := x :: xs
      cheapest_provider := cheapest.1
      cheapest_cost := cheapest.2 }

/-! ## Concrete sample data (used by witnesses) -/

/-- The idle test instance of the spec's Idle-GPU bullet: running, 3.0%
utilization, $2.93/hr, on demand. -/
def idleTestInstance : GPUInstance :=
  { instance_id := "idle-1"
    provider := "test"
    instance_type := "test-type"
    gpu_type := .A100_40GB
    gpu_count := 1
    region := "us-east-1"
    pricing_type := .ON_DEMAND
    hourly_cost := 2.93
    status := "running"
    gpu_utilization := some 3 }

/-- A stopped instance with a (high) utilization reading. -/
def stoppedTestInstance : GPUInstance :=
  { instance_id := "stop-1"
    provider := "test"
    instance_type := "test-type"
    gpu_type := .A100_40GB
    gpu_count := 1
    region := "us-east-1"
    pricing_type := .ON_DEMAND
    hourly_cost := 2.93
    status := "stopped"
    gpu_utilization := some 3 }

/-- The mutable state of a `SpendAggregator` object: its registered
connector list (the only attribute `__init__` creates). -/
structure AggState where
  connectors : List BaseConnector

/-- One `get_summary` call on an aggregator object: it reads the connector
list and returns the summary together with the state after the call
(`get_summary` assigns no attribute, so the state is returned unchanged). -/
def get_summary_call (σ : AggState) (start_date end_date : PyDateTime) :
    SpendSummary × AggState :=
  (get_summary σ.connectors start_date end_date, σ)

/-- A connector whose calls succeed. -/
def okConnector : BaseConnector :=
  { provider_name := "test"
    connectResult := true
    list_gpu_instances := .ok [idleTestInstance]
    get_usage := fun _ _ => .ok []
    get_current_spend := 0 }

/-- A connector whose calls raise. -/
def failingConnector : BaseConnector :=
  { provider_name := "bad"
    connectResult := false
    list_gpu_instances := .error "boom"
    get_usage := fun _ _ => .error "boom"
    get_current_spend := 0 }

/-- A usage record on calendar day 0. -/
def sampleUsageA : UsageRecord :=
  { instance_id := "i1"
    provider := "aws"
    start_time := ⟨0, 3600⟩
    end_time := ⟨0, 7200⟩
    hours_used := 1
    cost := 10
    gpu_type := .A100_40GB
    gpu_count := 1
    pricing_type := .ON_DEMAND
    region := "us-east-1" }

/-- A usage record on calendar day 1. -/
def sampleUsageB : UsageRecord :=
  { instance_id := "i1"
    provider := "aws"
    start_time := ⟨1, 3600⟩
    end_time := ⟨1, 7200⟩
    hours_used := 2
    cost := 20
    gpu_type := .A100_40GB
    gpu_count := 1
    pricing_type := .ON_DEMAND
    region := "us-east-1" }

/-- A two-day lookback dataset with nonnegative costs. -/
def sampleRecords : List UsageRecord :=
  [sampleUsageA, sampleUsageB]

end Computer

namespace Computer

/-! ## Theorems -/

/-- **C7.** For every instance whose status is not in the running set
(`{"running", "active"}` after lowercasing), `is_running` is false and
`is_idle` is false regardless of the utilization fields; for every running
instance with a known `gpu_utilization`, `is_idle` is true exactly when the
utilization is below 10 and false at or above 10. -/
theorem is_running_is_idle_classification (i : GPUInstance) :
    (pyLower i.status ∉ ["running", "active"] →
      i.is_running = false ∧ i.is_idle = false) ∧
    (∀ u : ℚ, i.is_running = true → i.gpu_utilization = some u →
      (i.is_idle = true ↔ u < 10)) := by
  constructor
  · intro h
    simp only [List.mem_cons, List.mem_singleton, not_or] at h
    have hr : i.is_running = false := by
      simp [GPUInstance.is_running, h.1, h.2]
    exact ⟨hr, by simp [GPUInstance.is_idle, hr]⟩
  · intro u hrun hu
    simp [GPUInstance.is_idle, hrun, hu]

/-- Witness for C7 at concrete instances: a stopped instance is not idle,
and a running instance at 3% utilization is idle. -/
theorem is_running_is_idle_classification_witness :
    stoppedTestInstance.is_idle = false ∧ idleTestInstance.is_idle = true :=
  ⟨((is_running_is_idle_classification stoppedTestInstance).1 (by decide)).2,
   ((is_running_is_idle_classification idleTestInstance).2 3 (by decide)
      rfl).mpr (by norm_num)⟩

/-- **C5.** A running instance with a known utilization below the 5%
threshold yields exactly one idle-GPU alert from the Idle GPU rule, with
daily waste `hourly_cost × 24` and severity high iff `hourly_cost > 5`,
else medium; and the default rule set applied to the spec's test instance
(3.0% utilization, $2.93/hr) yields exactly one `idle_gpu` alert, of
severity medium, with daily waste `2.93 × 24`. -/
theorem idle_gpu_rule_alert :
    (∀ (i : GPUInstance) (u : ℚ), i.is_running = true →
      i.gpu_utilization = some u → u < 5 →
      IdleGPURule.evaluate 5 i =
        some { waste_type := .idle_gpu
               severity := if i.hourly_cost > 5 then .high else .medium
               inst := i
               estimated_waste_per_day := i.hourly_cost * 24 }) ∧
    (analyze_instance DEFAULT_RULES idleTestInstance).filter
        (fun a => a.waste_type == WasteType.idle_gpu) =
      [{ waste_type := .idle_gpu
         severity := .medium
         inst := idleTestInstance
         estimated_waste_per_day := (2.93 : ℚ) * 24 }] := by
  constructor
  · intro i u hrun hu hlt
    simp [IdleGPURule.evaluate, hrun, hu, hlt]
  · have hrun : idleTestInstance.is_running = true := by decide
    have hutil : idleTestInstance.gpu_utilization = some 3 := rfl
    have hmem : idleTestInstance.memory_utilization = none := rfl
    have hprice : idleTestInstance.pricing_type = PricingType.ON_DEMAND := rfl
    have hcost : idleTestInstance.hourly_cost = 293/100 := by
      norm_num [idleTestInstance]
    norm_num [analyze_instance, DEFAULT_RULES, WasteRule.evaluate,
      IdleGPURule.evaluate, LowUtilizationRule.evaluate,
      SpotOpportunityRule.evaluate, OversizedInstanceRule.evaluate,
      hrun, hutil, hmem, hprice, hcost]
    decide

/-- Folding `get_all_instances`'s step from any accumulator appends the
connectors' merged contribution to it. -/
lemma get_all_instances_foldl_acc (connectors : List BaseConnector) :
    ∀ acc : List GPUInstance,
      connectors.foldl
        (fun instances c =>
          match c.list_gpu_instances with
          | .ok l => instances ++ l
          | .error _ => instances)
        acc = acc ++ get_all_instances connectors := by
  induction connectors with
  | nil => intro acc; simp [get_all_instances]
  | cons c cs ih =>
    intro acc
    rcases h : c.list_gpu_instances with m | m
    · simp only [get_all_instances, List.foldl_cons, h, List.nil_append]
      rw [ih acc]; rfl
    · simp only [get_all_instances, List.foldl_cons, h, List.nil_append]
      rw [ih (acc ++ m), ih m, List.append_assoc]

/-- Folding `get_all_usage`'s step from any accumulator appends the
connectors' merged contribution to it. -/
lemma get_all_usage_foldl_acc (connectors : List BaseConnector)
    (s t : PyDateTime) :
    ∀ acc : List UsageRecord,
      connectors.foldl
        (fun records c =>
          match c.get_usage s t with
          | .ok l => records ++ l
          | .error _ => records)
        acc = acc ++ get_all_usage connectors s t := by
  induction connectors with
  | nil => intro acc; simp [get_all_usage]
  | cons c cs ih =>
    intro acc
    rcases h : c.get_usage s t with m | m
    · simp only [get_all_usage, List.foldl_cons, h, List.nil_append]
      rw [ih acc]; rfl
    · simp only [get_all_usage, List.foldl_cons, h, List.nil_append]
      rw [ih (acc ++ m), ih m, List.append_assoc]

/-- `get_all_instances` distributes over connector-list concatenation. -/
lemma get_all_instances_append (l₁ l₂ : List BaseConnector) :
    get_all_instances (l₁ ++ l₂) =
      get_all_instances l₁ ++ get_all_instances l₂ := by
  show List.foldl _ [] (l₁ ++ l₂) = _
  rw [List.foldl_append, get_all_instances_foldl_acc]
  rfl

/-- `get_all_usage` distributes over connector-list concatenation. -/
lemma get_all_usage_append (l₁ l₂ : List BaseConnector) (s t : PyDateTime) :
    get_all_usage (l₁ ++ l₂) s t =
      get_all_usage l₁ s t ++ get_all_usage l₂ s t := by
  show List.foldl _ [] (l₁ ++ l₂) = _
  rw [List.foldl_append, get_all_usage_foldl_acc]
  rfl

/-- **C2.** A provider whose `list_gpu_instances` or `get_usage` raises is
caught at the aggregator boundary and contributes nothing to the merged
result, while every other provider's contribution is kept; the merge itself
is a total function and never propagates the error. -/
theorem aggregator_partial_failure_isolation
    (pre post : List BaseConnector) (c : BaseConnector) (s t : PyDateTime) :
    (∀ msg, c.list_gpu_instances = .error msg →
      get_all_instances (pre ++ c :: post) =
        get_all_instances pre ++ get_all_instances post) ∧
    (∀ l, c.list_gpu_instances = .ok l →
      get_all_instances (pre ++ c :: post) =
        get_all_instances pre ++ l ++ get_all_instances post) ∧
    (∀ msg, c.get_usage s t = .error msg →
      get_all_usage (pre ++ c :: post) s t =
        get_all_usage pre s t ++ get_all_usage post s t) ∧
    (∀ l, c.get_usage s t = .ok l →
      get_all_usage (pre ++ c :: post) s t =
        get_all_usage pre s t ++ l ++ get_all_usage post s t) := by
  have hsingle : ∀ msg, c.list_gpu_instances = .error msg →
      get_all_instances [c] = [] := by
    intro msg h; simp [get_all_instances, h]
  have hsingle2 : ∀ l, c.list_gpu_instances = .ok l →
      get_all_instances [c] = l := by
    intro l h; simp [get_all_instances, h]
  have husingle : ∀ msg, c.get_usage s t = .error msg →
      get_all_usage [c] s t = [] := by
    intro msg h; simp [get_all_usage, h]
  have husingle2 : ∀ l, c.get_usage s t = .ok l →
      get_all_usage [c] s t = l := by
    intro l h; simp [get_all_usage, h]
  have hsplit : get_all_instances (pre ++ c :: post) =
      get_all_instances pre ++ get_all_instances [c] ++
        get_all_instances post := by
    rw [show pre ++ c :: post = pre ++ [c] ++ post by simp]
    rw [get_all_instances_append, get_all_instances_append]
  have husplit : get_all_usage (pre ++ c :: post) s t =
      get_all_usage pre s t ++ get_all_usage [c] s t ++
        get_all_usage post s t := by
    rw [show pre ++ c :: post = pre ++ [c] ++ post by simp]
    rw [get_all_usage_append, get_all_usage_append]
  refine ⟨fun msg h => ?_, fun l h => ?_, fun msg h => ?_, fun l h => ?_⟩
  · rw [hsplit, hsingle msg h]; simp
  · rw [hsplit, hsingle2 l h]
  · rw [husplit, husingle msg h]; simp
  · rw [husplit, husingle2 l h]

/-- Witness for C2: a failing connector between two calls contributes
nothing. -/
theorem aggregator_partial_failure_isolation_witness :
    get_all_instances ([okConnector] ++ failingConnector :: []) =
      get_all_instances [okConnector] ++ get_all_instances [] :=
  (aggregator_partial_failure_isolation [okConnector] [] failingConnector
    ⟨0, 0⟩ ⟨0, 0⟩).1 "boom" rfl

/-- Summing `if x == k then v else 0` over keys avoiding `x` gives `0`. -/
lemma sum_ite_beq_zero {κ : Type} [BEq κ] [LawfulBEq κ] (x : κ) (v : ℚ) :
    ∀ keys : List κ, x ∉ keys →
      (keys.map (fun k => if x == k then v else 0)).sum = 0 := by
  intro keys h
  induction keys with
  | nil => simp
  | cons k ks ih =>
    simp only [List.mem_cons, not_or] at h
    have hb : (x == k) = false := by simp [h.1]
    simp only [List.map_cons, List.sum_cons, hb, Bool.false_eq_true, if_false]
    rw [ih h.2, add_zero]

/-- Summing `if x == k then v else 0` over distinct keys containing `x`
gives `v`. -/
lemma sum_ite_beq_single {κ : Type} [BEq κ] [LawfulBEq κ] (x : κ) (v : ℚ) :
    ∀ keys : List κ, keys.Nodup → x ∈ keys →
      (keys.map (fun k => if x == k then v else 0)).sum = v := by
  intro keys
  induction keys with
  | nil => intro _ h; cases h
  | cons k ks ih =>
    intro hnd hmem
    rw [List.nodup_cons] at hnd
    by_cases hx : x = k
    · subst hx
      simp only [List.map_cons, List.sum_cons, BEq.refl, if_true]
      rw [sum_ite_beq_zero x v ks hnd.1, add_zero]
    · have hb : (x == k) = false := by simp [hx]
      have hm : x ∈ ks := by
        rcases List.mem_cons.mp hmem with h | h
        · exact absurd h hx
        · exact h
      simp only [List.map_cons, List.sum_cons, hb, Bool.false_eq_true, if_false]
      rw [ih hnd.2 hm, zero_add]

/-- Summing per-group sums over a distinct key list covering every element's
key recovers the total sum: the grouped `defaultdict` totals add up. -/
lemma sum_map_filter_groups {α κ : Type} [BEq κ] [LawfulBEq κ]
    (key : α → κ) (val : α → ℚ) :
    ∀ (l : List α) (keys : List κ), keys.Nodup → (∀ a ∈ l, key a ∈ keys) →
      (keys.map (fun k =>
        ((l.filter (fun a => key a == k)).map val).sum)).sum
        = (l.map val).sum := by
  intro l
  induction l with
  | nil => intro keys _ _; simp
  | cons a l ih =>
    intro keys hnd hcov
    have hsplit : ∀ k : κ,
        (((a :: l).filter (fun x => key x == k)).map val).sum
          = (if key a == k then val a else 0)
            + ((l.filter (fun x => key x == k)).map val).sum := by
      intro k
      cases hb : (key a == k) <;> simp [List.filter_cons, hb]
    have hfun : (fun k => (((a :: l).filter (fun x => key x == k)).map val).sum)
        = fun k => (if key a == k then val a else 0)
            + ((l.filter (fun x => key x == k)).map val).sum := funext hsplit
    rw [hfun, List.sum_map_add,
      sum_ite_beq_single (key a) (val a) keys hnd (hcov a (by simp)),
      ih keys hnd (fun x hx => hcov x (by simp [hx]))]
    simp

/-- An element of the list that has not been seen appears in the
first-occurrence key list. -/
lemma mem_dedupByKeyAux_id {κ : Type} [DecidableEq κ] :
    ∀ (seen l : List κ) (x : κ), x ∈ l → x ∉ seen →
      x ∈ dedupByKeyAux id seen l := by
  intro seen l
  induction l generalizing seen with
  | nil => intro x h; cases h
  | cons c cs ih =>
    intro x hmem hns
    by_cases hc : (id c) ∈ seen
    · simp only [dedupByKeyAux, if_pos hc]
      rcases List.mem_cons.mp hmem with rfl | hx
      · exact absurd hc hns
      · exact ih seen x hx hns
    · simp only [dedupByKeyAux, if_neg hc]
      by_cases hxc : x = c
      · subst hxc; exact List.mem_cons_self x _
      · rcases List.mem_cons.mp hmem with rfl | hx
        · exact absurd rfl hxc
        · refine List.mem_cons_of_mem _ (ih (id c :: seen) x hx ?_)
          simp only [List.mem_cons, not_or, id]
          exact ⟨hxc, hns⟩

/-- The keys of the first-occurrence-deduplicated list are distinct and
avoid the seen set. -/
lemma dedupByKeyAux_map_key_nodup {α κ : Type} [DecidableEq κ] (key : α → κ) :
    ∀ (seen : List κ) (l : List α),
      ((dedupByKeyAux key seen l).map key).Nodup ∧
        ∀ a ∈ dedupByKeyAux key seen l, key a ∉ seen := by
  intro seen l
  induction l generalizing seen with
  | nil => simp [dedupByKeyAux]
  | cons c cs ih =>
    by_cases hc : key c ∈ seen
    · simp only [dedupByKeyAux, if_pos hc]
      exact ih seen
    · simp only [dedupByKeyAux, if_neg hc]
      obtain ⟨hnd, hsub⟩ := ih (key c :: seen)
      refine ⟨?_, ?_⟩
      · simp only [List.map_cons, List.nodup_cons]
        refine ⟨?_, hnd⟩
        intro hmem
        obtain ⟨a, ha, hkey⟩ := List.mem_map.mp hmem
        have := hsub a ha
        simp [hkey] at this
      · intro a ha
        rcases List.mem_cons.mp ha with rfl | ha2
        · exact hc
        · intro hx
          exact (hsub a ha2) (List.mem_cons_of_mem _ hx)

/-- Python dict keys (first-occurrence order) are distinct. -/
lemma pyDictKeys_nodup {κ : Type} [DecidableEq κ] (l : List κ) :
    (pyDictKeys l).Nodup := by
  have h := (dedupByKeyAux_map_key_nodup (id : κ → κ) [] l).1
  simpa using h

/-- Every inserted key appears among the Python dict keys. -/
lemma mem_pyDictKeys {κ : Type} [DecidableEq κ] {l : List κ} {x : κ}
    (h : x ∈ l) : x ∈ pyDictKeys l :=
  mem_dedupByKeyAux_id [] l x h (by simp)

/-- **C1.** In every spend summary, the per-provider `total_cost` values of
the `by_provider` breakdown sum to the summary's `total_cost`: both sides
aggregate the cost of the very same usage-record list. -/
theorem provider_breakdown_costs_sum_to_total
    (connectors : List BaseConnector) (s e : PyDateTime) :
    (((get_summary connectors s e).by_provider).map (·.total_cost)).sum =
      (get_summary connectors s e).total_cost := by
  simp only [get_summary, List.map_map]
  refine sum_map_filter_groups (fun r => r.provider) (fun r => r.cost)
    (get_all_usage connectors s e) _ (pyDictKeys_nodup _) ?_
  intro r hr
  exact mem_pyDictKeys
    (List.mem_append_left _ (List.mem_map_of_mem (fun x => x.provider) hr))

/-- **C8.** Two successive `get_summary` calls on the same aggregator state
with the identical window return summaries equal in every field, and the
call leaves the registered-connector state unchanged: the computation reads
no hidden mutable state. -/
theorem get_summary_idempotent (σ : AggState) (s e : PyDateTime) :
    (get_summary_call σ s e).1.start_date =
        (get_summary_call (get_summary_call σ s e).2 s e).1.start_date ∧
    (get_summary_call σ s e).1.end_date =
        (get_summary_call (get_summary_call σ s e).2 s e).1.end_date ∧
    (get_summary_call σ s e).1.total_cost =
        (get_summary_call (get_summary_call σ s e).2 s e).1.total_cost ∧
    (get_summary_call σ s e).1.total_gpu_hours =
        (get_summary_call (get_summary_call σ s e).2 s e).1.total_gpu_hours ∧
    (get_summary_call σ s e).1.total_instances =
        (get_summary_call (get_summary_call σ s e).2 s e).1.total_instances ∧
    (get_summary_call σ s e).1.running_instances =
        (get_summary_call (get_summary_call σ s e).2 s e).1.running_instances ∧
    (get_summary_call σ s e).1.idle_instances =
        (get_summary_call (get_summary_call σ s e).2 s e).1.idle_instances ∧
    (get_summary_call σ s e).1.by_provider =
        (get_summary_call (get_summary_call σ s e).2 s e).1.by_provider ∧
    (get_summary_call σ s e).1.by_gpu_type =
        (get_summary_call (get_summary_call σ s e).2 s e).1.by_gpu_type ∧
    (get_summary_call σ s e).1.by_region =
        (get_summary_call (get_summary_call σ s e).2 s e).1.by_region ∧
    (get_summary_call σ s e).1.by_pricing =
        (get_summary_call (get_summary_call σ s e).2 s e).1.by_pricing ∧
    (get_summary_call σ s e).1.avg_gpu_utilization =
        (get_summary_call (get_summary_call σ s e).2 s e).1.avg_gpu_utilization ∧
    (get_summary_call σ s e).1.estimated_waste =
        (get_summary_call (get_summary_call σ s e).2 s e).1.estimated_waste ∧
    (get_summary_call σ s e).1.potential_savings =
        (get_summary_call (get_summary_call σ s e).2 s e).1.potential_savings ∧
    (get_summary_call (get_summary_call σ s e).2 s e).2 = σ :=
  ⟨rfl, rfl, rfl, rfl, rfl, rfl, rfl, rfl, rfl, rfl, rfl, rfl, rfl, rfl, rfl⟩

/-- Witness for C5 at the concrete test instance. -/
theorem idle_gpu_rule_alert_witness :
    IdleGPURule.evaluate 5 idleTestInstance =
      some { waste_type := .idle_gpu
             severity :=
               if idleTestInstance.hourly_cost > 5 then .high else .medium
             inst := idleTestInstance
             estimated_waste_per_day := idleTestInstance.hourly_cost * 24 } :=
  idle_gpu_rule_alert.1 idleTestInstance 3 (by decide) rfl (by norm_num)

/-- The value-minimizing fold of `min(items, key=value)` returns an element
of the list. -/
lemma foldl_pickMin_mem :
    ∀ (xs : List (String × ℚ)) (x : String × ℚ),
      xs.foldl (fun best p => if p.2 < best.2 then p else best) x ∈ x :: xs := by
  intro xs
  induction xs with
  | nil => intro x; simp
  | cons y ys ih =>
    intro x
    simp only [List.foldl_cons]
    have h := ih (if y.2 < x.2 then y else x)
    rcases List.mem_cons.mp h with h1 | h1
    · rw [h1]
      by_cases hy : y.2 < x.2 <;> simp [hy]
    · simp [List.mem_cons_of_mem, h1]

/-- The value-minimizing fold's value is a lower bound of all values. -/
lemma foldl_pickMin_le :
    ∀ (xs : List (String × ℚ)) (x p : String × ℚ), p ∈ x :: xs →
      (xs.foldl (fun best q => if q.2 < best.2 then q else best) x).2 ≤ p.2 := by
  intro xs
  induction xs with
  | nil =>
    intro x p hp
    rcases List.mem_cons.mp hp with rfl | h
    · exact le_refl _
    · cases h
  | cons y ys ih =>
    intro x p hp
    simp only [List.foldl_cons]
    have hstart : (if y.2 < x.2 then y else x).2 ≤ x.2 := by
      by_cases hy : y.2 < x.2 <;> simp [hy]
      exact le_of_lt hy
    have hstarty : (if y.2 < x.2 then y else x).2 ≤ y.2 := by
      by_cases hy : y.2 < x.2 <;> simp [hy]
      exact le_of_not_lt hy
    rcases List.mem_cons.mp hp with rfl | hp2
    · exact le_trans (ih _ _ (List.mem_cons_self _ _)) hstart
    · rcases List.mem_cons.mp hp2 with rfl | hp3
      · exact le_trans (ih _ _ (List.mem_cons_self _ _)) hstarty
      · exact ih _ p (List.mem_cons_of_mem _ hp3)

/-- The max fold of `max(values)` returns an element of the list. -/
lemma foldl_max_mem :
    ∀ (vs : List ℚ) (v : ℚ), vs.foldl max v ∈ v :: vs := by
  intro vs
  induction vs with
  | nil => intro v; simp
  | cons w ws ih =>
    intro v
    simp only [List.foldl_cons]
    have h := ih (max v w)
    rcases List.mem_cons.mp h with h1 | h1
    · rw [h1]
      rcases max_choice v w with h2 | h2 <;> simp [h2]
    · simp [List.mem_cons_of_mem, h1]

/-- The max fold's value is an upper bound of all values. -/
lemma le_foldl_max :
    ∀ (vs : List ℚ) (v u : ℚ), u ∈ v :: vs → u ≤ vs.foldl max v := by
  intro vs
  induction vs with
  | nil =>
    intro v u hu
    rcases List.mem_cons.mp hu with rfl | h
    · exact le_refl _
    · cases h
  | cons w ws ih =>
    intro v u hu
    simp only [List.foldl_cons]
    rcases List.mem_cons.mp hu with rfl | hu2
    · exact le_trans (le_max_left u w) (ih _ _ (List.mem_cons_self _ _))
    · rcases List.mem_cons.mp hu2 with rfl | hu3
      · exact le_trans (le_max_right v u) (ih _ _ (List.mem_cons_self _ _))
      · exact ih _ u (List.mem_cons_of_mem _ hu3)

/-- **C10.** For a GPU type absent from the `GPU_RATES` table the training
cost estimate is still returned (the empty-map average and minimum are
guarded), with an empty provider-cost map, zero estimated cost and range,
`cheapest_provider = "unknown"` and zero cheapest cost. -/
theorem estimate_training_cost_empty_rates (model_size_params : ℚ)
    (g : GPUType) (n : ℕ) (training_tokens : ℚ)
    (h : GPU_RATES g = []) :
    (estimate_training_cost model_size_params g n training_tokens).provider_costs
        = [] ∧
    (estimate_training_cost model_size_params g n training_tokens).estimated_cost
        = 0 ∧
    (estimate_training_cost model_size_params g n training_tokens).cost_range_low
        = 0 ∧
    (estimate_training_cost model_size_params g n training_tokens).cost_range_high
        = 0 ∧
    (estimate_training_cost model_size_params g n training_tokens).cheapest_provider
        = "unknown" ∧
    (estimate_training_cost model_size_params g n training_tokens).cheapest_cost
        = 0 := by
  simp [estimate_training_cost, h]

/-- Witness for C10 at the L4 GPU type, which has no rate-table entry. -/
theorem estimate_training_cost_empty_rates_witness :
    (estimate_training_cost 7 GPUType.L4 8 1e12).provider_costs = [] ∧
    (estimate_training_cost 7 GPUType.L4 8 1e12).estimated_cost = 0 ∧
    (estimate_training_cost 7 GPUType.L4 8 1e12).cost_range_low = 0 ∧
    (estimate_training_cost 7 GPUType.L4 8 1e12).cost_range_high = 0 ∧
    (estimate_training_cost 7 GPUType.L4 8 1e12).cheapest_provider = "unknown" ∧
    (estimate_training_cost 7 GPUType.L4 8 1e12).cheapest_cost = 0 :=
  estimate_training_cost_empty_rates 7 GPUType.L4 8 1e12 rfl

/-- **C6.** Whenever the GPU type has a (nonempty) provider rate table, the
training estimate's `estimated_cost` is the average of the per-provider
costs, `cost_range_low` and `cheapest_cost` are their minimum, and
`cost_range_high` is their maximum; and at the spec's concrete input
(7B params, A100-80GB, 8 GPUs, 1e12 tokens) the estimated hours are
positive, the provider-cost map is nonempty and `cheapest_cost` is the
minimum of its values. -/
theorem estimate_training_cost_provider_stats :
    (∀ (params tokens : ℚ) (g : GPUType) (n : ℕ), GPU_RATES g ≠ [] →
      let e := estimate_training_cost params g n tokens
      e.provider_costs ≠ [] ∧
      e.estimated_cost =
        (e.provider_costs.map (·.2)).sum / (e.provider_costs.length : ℚ) ∧
      e.cost_range_low = e.cheapest_cost ∧
      e.cheapest_cost ∈ e.provider_costs.map (·.2) ∧
      (∀ v ∈ e.provider_costs.map (·.2), e.cheapest_cost ≤ v) ∧
      e.cost_range_high ∈ e.provider_costs.map (·.2) ∧
      (∀ v ∈ e.provider_costs.map (·.2), v ≤ e.cost_range_high)) ∧
    (let e7 := estimate_training_cost 7 .A100_80GB 8 1e12
     0 < e7.estimated_hours ∧
     e7.provider_costs ≠ [] ∧
     e7.cheapest_cost ∈ e7.provider_costs.map (·.2) ∧
     ∀ v ∈ e7.provider_costs.map (·.2), e7.cheapest_cost ≤ v) := by
  constructor
  · intro params tokens g n hg
    rcases hr : GPU_RATES g with _ | ⟨r, rs⟩
    · exact absurd hr hg
    intro e
    show e.provider_costs ≠ [] ∧ _
    simp only [e, estimate_training_cost, hr, List.map_cons]
    refine ⟨by simp, trivial, trivial, ?_, ?_, ?_, ?_⟩
    · exact List.mem_map_of_mem Prod.snd (foldl_pickMin_mem _ _)
    · intro v hv
      rcases List.mem_cons.mp hv with rfl | hv2
      · exact foldl_pickMin_le _ _ _ (List.mem_cons_self _ _)
      · obtain ⟨p, hp, rfl⟩ := List.mem_map.mp hv2
        exact foldl_pickMin_le _ _ p (List.mem_cons_of_mem _ hp)
    · exact foldl_max_mem _ _
    · intro v hv
      exact le_foldl_max _ _ v hv
  · intro e7
    have hr : GPU_RATES .A100_80GB =
        [("aws", 40.97 / 8), ("gcp", 3.67), ("azure", 3.67),
         ("vastai", 1.50), ("runpod", 1.49), ("lambda", 1.29)] := rfl
    show 0 < e7.estimated_hours ∧ _
    simp only [e7, estimate_training_cost, hr, flopsPerGPU, List.map_cons,
      List.map_nil]
    norm_num
    simp

/-- Witness for C6: the T4 GPU type has a nonempty rate table, so its
estimate enjoys the average/min/max properties. -/
theorem estimate_training_cost_provider_stats_witness :
    (estimate_training_cost 1 GPUType.T4 2 100).provider_costs ≠ [] ∧
    (estimate_training_cost 1 GPUType.T4 2 100).estimated_cost =
      ((estimate_training_cost 1 GPUType.T4 2 100).provider_costs.map
        (·.2)).sum /
        (((estimate_training_cost 1 GPUType.T4 2 100).provider_costs.length : ℚ)) ∧
    (estimate_training_cost 1 GPUType.T4 2 100).cost_range_low =
      (estimate_training_cost 1 GPUType.T4 2 100).cheapest_cost ∧
    (estimate_training_cost 1 GPUType.T4 2 100).cheapest_cost ∈
      (estimate_training_cost 1 GPUType.T4 2 100).provider_costs.map (·.2) ∧
    (∀ v ∈ (estimate_training_cost 1 GPUType.T4 2 100).provider_costs.map (·.2),
      (estimate_training_cost 1 GPUType.T4 2 100).cheapest_cost ≤ v) ∧
    (estimate_training_cost 1 GPUType.T4 2 100).cost_range_high ∈
      (estimate_training_cost 1 GPUType.T4 2 100).provider_costs.map (·.2) ∧
    (∀ v ∈ (estimate_training_cost 1 GPUType.T4 2 100).provider_costs.map (·.2),
      v ≤ (estimate_training_cost 1 GPUType.T4 2 100).cost_range_high) :=
  estimate_training_cost_provider_stats.1 1 100 GPUType.T4 2 (by simp [GPU_RATES])

/-- **C9.** On the fewer-than-3-distinct-days (mean-based) path of
`forecast_month`, the returned forecast carries empty `by_provider` and
`by_gpu_type` breakdowns and its `model_type` still reads
`"linear_trend"` — the dataclass default — although the mean model produced
the prediction. -/
theorem forecast_mean_path_breakdowns (records : List UsageRecord)
    (instances : List GPUInstance) (days_ahead : ℤ)
    (hne : records ≠ []) (hlt : (dailyKeysOf records).length < 3) :
    (forecast_month_on records instances days_ahead).by_provider = [] ∧
    (forecast_month_on records instances days_ahead).by_gpu_type = [] ∧
    (forecast_month_on records instances days_ahead).model_type =
      "linear_trend" := by
  have hne2 : records.isEmpty = false := by simp [List.isEmpty_iff, hne]
  simp [forecast_month_on, hne2, hlt]

/-- Witness for C9 at a concrete two-day dataset. -/
theorem forecast_mean_path_breakdowns_witness :
    (forecast_month_on sampleRecords [] 5).by_provider = [] ∧
    (forecast_month_on sampleRecords [] 5).by_gpu_type = [] ∧
    (forecast_month_on sampleRecords [] 5).model_type = "linear_trend" :=
  forecast_mean_path_breakdowns sampleRecords [] 5 (by decide) (by decide)

/-- **C3.** On a nonempty lookback dataset with nonnegative costs:
with fewer than 3 distinct calendar days the forecast is the mean daily
cost times 30 with a ±30% band; with 3 or more distinct days it is the
least-squares trend projection (clamped at 0) times 30; and in both cases
`confidence_low ≤ predicted_cost ≤ confidence_high`. -/
theorem forecast_month_confidence_band (records : List UsageRecord)
    (instances : List GPUInstance) (days_ahead : ℤ)
    (hne : records ≠ []) (hpos : ∀ r ∈ records, 0 ≤ r.cost) :
    ((dailyKeysOf records).length < 3 →
      (forecast_month_on records instances days_ahead).predicted_cost =
        (((((dailyKeysOf records).map (daily_cost records)).sum /
          ((dailyKeysOf records).length : ℚ)) * 30 : ℚ) : ℝ) ∧
      (forecast_month_on records instances days_ahead).confidence_low =
        (7/10 : ℝ) *
          (forecast_month_on records instances days_ahead).predicted_cost ∧
      (forecast_month_on records instances days_ahead).confidence_high =
        (13/10 : ℝ) *
          (forecast_month_on records instances days_ahead).predicted_cost) ∧
    (3 ≤ (dailyKeysOf records).length →
      (forecast_month_on records instances days_ahead).model_type =
        "linear_trend" ∧
      (forecast_month_on records instances days_ahead).predicted_cost =
        ((max 0
          (lsqIntercept
            (((dailyKeysOf records).mergeSort pyDateLE).map
              (daily_cost records)) +
           lsqSlope
            (((dailyKeysOf records).mergeSort pyDateLE).map
              (daily_cost records)) *
            (((((dailyKeysOf records).mergeSort pyDateLE).map
              (daily_cost records)).length : ℚ) + (days_ahead : ℚ)))
          * 30 : ℚ) : ℝ)) ∧
    (forecast_month_on records instances days_ahead).confidence_low ≤
      (forecast_month_on records instances days_ahead).predicted_cost ∧
    (forecast_month_on records instances days_ahead).predicted_cost ≤
      (forecast_month_on records instances days_ahead).confidence_high := by
  have hne2 : records.isEmpty = false := by simp [List.isEmpty_iff, hne]
  have hsum : 0 ≤ ((dailyKeysOf records).map (daily_cost records)).sum := by
    apply List.sum_nonneg
    intro x hx
    obtain ⟨d, hd, rfl⟩ := List.mem_map.mp hx
    apply List.sum_nonneg
    intro y hy
    obtain ⟨r, hr, rfl⟩ := List.mem_map.mp hy
    exact hpos r (List.mem_of_mem_filter hr)
  by_cases h3 : (dailyKeysOf records).length < 3
  · have hA : 0 ≤ ((dailyKeysOf records).map (daily_cost records)).sum /
        ((dailyKeysOf records).length : ℚ) :=
      div_nonneg hsum (by positivity)
    refine ⟨fun _ => ⟨?_, ?_, ?_⟩, fun hge2 => absurd h3 (by omega), ?_, ?_⟩
    · simp [forecast_month_on, hne2, h3]
    · simp [forecast_month_on, hne2, h3]
      ring
    · simp [forecast_month_on, hne2, h3]
      ring
    · simp only [forecast_month_on, hne2, Bool.false_eq_true, if_false]
      rw [if_pos h3]
      dsimp only
      rw [Rat.cast_le]
      linarith [hA]
    · simp only [forecast_month_on, hne2, Bool.false_eq_true, if_false]
      rw [if_pos h3]
      dsimp only
      rw [Rat.cast_le]
      linarith [hA]
  · have hm : (0 : ℝ) ≤ (196/100 : ℝ) *
        Real.sqrt ((popVariance
          (((dailyKeysOf records).mergeSort pyDateLE).map
            (daily_cost records)) : ℚ) : ℝ) * Real.sqrt 30 := by
      positivity
    have hP : (0 : ℚ) ≤ (max 0
        (lsqIntercept
          (((dailyKeysOf records).mergeSort pyDateLE).map (daily_cost records)) +
         lsqSlope
          (((dailyKeysOf records).mergeSort pyDateLE).map (daily_cost records)) *
          (((((dailyKeysOf records).mergeSort pyDateLE).map
            (daily_cost records)).length : ℚ) + (days_ahead : ℚ)))) * 30 := by
      have h0 : (0 : ℚ) ≤ max 0
          (lsqIntercept
            (((dailyKeysOf records).mergeSort pyDateLE).map
              (daily_cost records)) +
           lsqSlope
            (((dailyKeysOf records).mergeSort pyDateLE).map
              (daily_cost records)) *
            (((((dailyKeysOf records).mergeSort pyDateLE).map
              (daily_cost records)).length : ℚ) + (days_ahead : ℚ))) :=
        le_max_left 0 _
      have h30 : (0 : ℚ) ≤ (30 : ℚ) := by norm_num
      exact mul_nonneg h0 h30
    refine ⟨fun hlt => absurd hlt h3, fun _ => ⟨?_, ?_⟩, ?_, ?_⟩
    · simp [forecast_month_on, hne2, h3]
    · simp [forecast_month_on, hne2, h3]
    · simp only [forecast_month_on, hne2, Bool.false_eq_true, if_false]
      rw [if_neg h3]
      dsimp only
      refine max_le ?_ ?_
      · exact_mod_cast hP
      · exact sub_le_self _ hm
    · simp only [forecast_month_on, hne2, Bool.false_eq_true, if_false]
      rw [if_neg h3]
      dsimp only
      exact le_add_of_nonneg_right hm

/-- Witness for C3 at a concrete two-day dataset (the mean path): the
returned band brackets the prediction. -/
theorem forecast_month_confidence_band_witness :
    (forecast_month_on sampleRecords [] 5).confidence_low ≤
      (forecast_month_on sampleRecords [] 5).predicted_cost ∧
    (forecast_month_on sampleRecords [] 5).predicted_cost ≤
      (forecast_month_on sampleRecords [] 5).confidence_high :=
  (forecast_month_confidence_band sampleRecords [] 5 (by decide)
    (by decide)).2.2

/-- The recommendation sort key order is transitive. -/
lemma recLE_trans : ∀ a b c : Recommendation,
    recLE a b = true → recLE b c = true → recLE a c = true := by
  intro a b c hab hbc
  simp only [recLE, Bool.or_eq_true, Bool.and_eq_true, decide_eq_true_eq,
    beq_iff_eq] at *
  rcases hab with h1 | ⟨h1, h2⟩ <;> rcases hbc with h3 | ⟨h3, h4⟩
  · exact Or.inl (lt_trans h1 h3)
  · exact Or.inl (by omega)
  · exact Or.inl (by omega)
  · exact Or.inr ⟨by omega, le_trans h4 h2⟩

/-- The recommendation sort key order is total. -/
lemma recLE_total : ∀ a b : Recommendation,
    (recLE a b || recLE b a) = true := by
  intro a b
  simp only [recLE, Bool.or_eq_true, Bool.and_eq_true, decide_eq_true_eq,
    beq_iff_eq]
  rcases lt_trichotomy (priority_order a.priority)
    (priority_order b.priority) with h | h | h
  · exact Or.inl (Or.inl h)
  · rcases le_total b.monthly_savings a.monthly_savings with hs | hs
    · exact Or.inl (Or.inr ⟨h, hs⟩)
    · exact Or.inr (Or.inr ⟨h.symm, hs⟩)
  · exact Or.inr (Or.inl h)

/-- First-occurrence deduplication yields a sublist. -/
lemma dedupByKeyAux_sublist {α κ : Type} [DecidableEq κ] (key : α → κ) :
    ∀ (seen : List κ) (l : List α), (dedupByKeyAux key seen l).Sublist l := by
  intro seen l
  induction l generalizing seen with
  | nil => simp [dedupByKeyAux]
  | cons x xs ih =>
    by_cases h : key x ∈ seen
    · simp only [dedupByKeyAux, if_pos h]
      exact (ih seen).cons x
    · simp only [dedupByKeyAux, if_neg h]
      exact (ih (key x :: seen)).cons₂ x

/-- Filtering the first-occurrence-deduplicated list at one key keeps
exactly the first element of that key (none if the key was already seen). -/
lemma dedupByKeyAux_filter {α κ : Type} [DecidableEq κ] [BEq κ] [LawfulBEq κ]
    (key : α → κ) (k : κ) :
    ∀ (seen : List κ) (l : List α),
      (dedupByKeyAux key seen l).filter (fun a => key a == k) =
        if k ∈ seen then [] else (l.filter (fun a => key a == k)).take 1 := by
  intro seen l
  induction l generalizing seen with
  | nil =>
    simp only [dedupByKeyAux, List.filter_nil]
    split <;> simp
  | cons x xs ih =>
    by_cases hx : key x ∈ seen
    · simp only [dedupByKeyAux, if_pos hx]
      rw [ih seen]
      by_cases hk : k ∈ seen
      · simp [hk]
      · have hne : (key x == k) = false := by
          simp only [beq_eq_false_iff_ne, ne_eq]
          intro he
          exact hk (he ▸ hx)
        simp [hk, List.filter_cons, hne]
    · simp only [dedupByKeyAux, if_neg hx]
      by_cases hxk : key x = k
      · subst hxk
        have hxx : (key x == key x) = true := by simp
        rw [if_neg hx]
        simp only [List.filter_cons, hxx, if_true]
        rw [ih (key x :: seen)]
        simp
      · have hne : (key x == k) = false := by simp [hxk]
        simp only [List.filter_cons, hne, Bool.false_eq_true, if_false]
        rw [ih (key x :: seen)]
        by_cases hk : k ∈ seen
        · simp [hk]
        · have hnotin : k ∉ key x :: seen := by
            simp only [List.mem_cons, not_or]
            exact ⟨fun h => hxk h.symm, hk⟩
          simp [hk, hnotin]

/-- **C4.** The final recommendation report is ordered by the sort key
(priority rank, then savings descending), and for every
`(instance_id, rec_type)` key exactly the first occurrence after the sort
survives — all later duplicates for the key are absent. -/
theorem recommendations_sorted_and_deduped (recs : List Recommendation) :
    List.Pairwise (fun a b => recLE a b = true)
      (finalizeRecommendations recs) ∧
    (recs.mergeSort recLE).Perm recs ∧
    ∀ k : Option String × RecommendationType,
      (finalizeRecommendations recs).filter (fun r => recKey r == k) =
        ((recs.mergeSort recLE).filter (fun r => recKey r == k)).take 1 := by
  refine ⟨?_, List.mergeSort_perm recs recLE, ?_⟩
  · have hsorted :=
      List.sorted_mergeSort recLE_trans recLE_total recs
    simp only [finalizeRecommendations]
    exact List.Pairwise.sublist (dedupByKeyAux_sublist recKey [] _) hsorted
  · intro k
    simp only [finalizeRecommendations]
    have h := dedupByKeyAux_filter recKey k [] (recs.mergeSort recLE)
    simpa using h

end Computer
